import Mathlib

/-!
Shallow embedding of the logical-decoding output plugin decoding_json.c.

The plugin turns row-level change events into JSON-shaped text. The embedding
models the three pure serialization layers of the file: the transaction framer
(pg_output_begin, pg_decode_commit_txn), the row event encoder
(pg_decode_change) and the value encoder (print_literal together with the
column loop tuple_to_stringinfo). StringInfo accumulation is modelled by
returning the appended fragment; host-supplied inputs (type output function
results, the qualified identifier, null and toast flags) are parameters.
-/

namespace DecodingJson

/-- Type oid of bool in the PostgreSQL catalog (pg_type.h). -/
def BOOLOID : Nat := 16

/-- Type oid of the two-byte integer. -/
def INT2OID : Nat := 21

/-- Type oid of the four-byte integer. -/
def INT4OID : Nat := 23

/-- Type oid of the eight-byte integer. -/
def INT8OID : Nat := 20

/-- Type oid of the object-identifier type. -/
def OIDOID : Nat := 26

/-- Type oid of single-precision float. -/
def FLOAT4OID : Nat := 700

/-- Type oid of double-precision float. -/
def FLOAT8OID : Nat := 701

/-- Type oid of arbitrary-precision numeric. -/
def NUMERICOID : Nat := 1700

/-- Type oid of fixed-length bit strings. -/
def BITOID : Nat := 1560

/-- Type oid of variable-length bit strings. -/
def VARBITOID : Nat := 1562

/-- Type oid of text, a representative of the default (generic-text) switch branch. -/
def TEXTOID : Nat := 25

/-- The single-quote character, written by code point to keep the source plain. -/
def squote : Char := Char.ofNat 39

/-- SQL_STR_DOUBLE from the PostgreSQL headers: a character is doubled when it
is a single quote, or a backslash while backslash escaping is on. The plugin
calls it with escape_backslash = false. -/
def SQL_STR_DOUBLE (ch : Char) (escape_backslash : Bool) : Bool :=
  ch == squote || (ch == Char.ofNat 92 && escape_backslash)

/-- One step of the default-branch loop of print_literal: the character is
appended once more beforehand when SQL_STR_DOUBLE selects it for doubling. -/
def sqlCharStep (s : String) (ch : Char) : String :=
  (if SQL_STR_DOUBLE ch false then s.push ch else s).push ch

/-- The character walk of the default branch of print_literal. -/
def sqlStrDoubleLoop (outputstr : String) : String :=
  outputstr.data.foldl sqlCharStep ""

/-- Shallow embedding of print_literal: dispatch on the type oid. The numeric
oids pass the output text through verbatim; bit strings are wrapped as a quoted
B-prefixed single-quoted form; booleans compare the text against t; every other
oid takes the default branch, wrapping the text in double quotes and running
the SQL_STR_DOUBLE loop over its characters. -/
def print_literal (typid : Nat) (outputstr : String) : String :=
  if typid = INT2OID ∨ typid = INT4OID ∨ typid = INT8OID ∨ typid = OIDOID ∨
     typid = FLOAT4OID ∨ typid = FLOAT8OID ∨ typid = NUMERICOID then
    outputstr
  else if typid = BITOID ∨ typid = VARBITOID then
    ("\"B" ++ String.singleton squote ++ outputstr) ++ (String.singleton squote ++ "\"")
  else if typid = BOOLOID then
    (if outputstr = "t" then "true" else "false")
  else
    "\"" ++ sqlStrDoubleLoop outputstr ++ "\""

/-- The per-column metadata the loop in tuple_to_stringinfo reads from the
tuple descriptor: name, type oid, dropped flag and attribute number. -/
structure PgAttribute where
  attname : String
  atttypid : Nat
  attisdropped : Bool
  attnum : Int
deriving DecidableEq

/-- The per-column value as the loop observes it: the null flag from
fastgetattr, an out-of-line (external on-disk toast) varlena datum that was not
materialized, or an available datum given by the text its type output function
produces (after detoasting when the type is varlena). -/
inductive PgDatum where
  | isnull
  | unchangedToast
  | present (outputstr : String)
deriving DecidableEq

/-- The body of the loop in tuple_to_stringinfo for attribute index natt:
skip dropped attributes, system attributes (negative attribute number) and
null values when skip_nulls is on; otherwise emit a comma when natt is
positive, then the quoted column name, a colon, and the value rendered as
null, the toast sentinel, or through print_literal. -/
def attr_chunk (skip_nulls : Bool) (natt : Nat) (attr : PgAttribute) (d : PgDatum) : String :=
  if attr.attisdropped then ""
  else if attr.attnum < 0 then ""
  else if d = PgDatum.isnull ∧ skip_nulls then ""
  else
    (if natt > 0 then "," else "") ++ ("\"" ++ attr.attname ++ "\":") ++
      (match d with
        | PgDatum.isnull => "null"
        | PgDatum.unchangedToast => "\"???unchanged-toast-datum???\""
        | PgDatum.present outputstr => print_literal attr.atttypid outputstr)

/-- Shallow embedding of tuple_to_stringinfo: run the loop body over the
columns in physical order, indexed from zero, and concatenate what it emits. -/
def tuple_to_stringinfo (cols : List (PgAttribute × PgDatum)) (skip_nulls : Bool) : String :=
  (cols.enum.map (fun p => attr_chunk skip_nulls p.1 p.2.1 p.2.2)).foldl (fun a b => a ++ b) ""

/-- The three change actions pg_decode_change recognizes; any other action is
asserted unreachable in the source. -/
inductive ChangeAction
  | insert
  | update
  | delete
deriving DecidableEq

/-- The text appended for the change field of each action. -/
def change_kind_str (a : ChangeAction) : String :=
  match a with
  | ChangeAction.insert => "INSERT"
  | ChangeAction.update => "UPDATE"
  | ChangeAction.delete => "DELETE"

/-- Shallow embedding of pg_decode_change for the three recognized actions.
qualified_name is the result of quote_qualified_identifier supplied by the
host, inserted verbatim; heaptuple is the row image the source dereferences
for the action (the new tuple on insert and update, the old tuple on delete;
the source dereferences these pointers unconditionally, so the data member is
always emitted here). Nulls are skipped exactly when the action is delete. -/
def pg_decode_change (qualified_name : String) (tupdesc : List PgAttribute)
    (action : ChangeAction) (heaptuple : List PgDatum) : String :=
  "\x7b\"type\":\"table\",\"name\":\"" ++ qualified_name ++ "\",\"change\":\"" ++
    change_kind_str action ++ "\"" ++ ",\"data\":\x7b" ++
    tuple_to_stringinfo (tupdesc.zip heaptuple) (decide (action = ChangeAction.delete)) ++
    "\x7d" ++ "\x7d"

/-- appendStringInfo-style formatting restricted to the percent-u directive,
the only one the plugin uses: each occurrence in the format is replaced by the
decimal rendering of the unsigned argument. -/
def formatU : List Char → Nat → String
  | [], _ => ""
  | '%' :: 'u' :: rest, u => Nat.repr u ++ formatU rest u
  | c :: rest, u => String.singleton c ++ formatU rest u

/-- The format string of the transaction-begin message. -/
def begin_message_fmt : String := "\x7b\"type\":\"transaction.begin\",\"xid\":\"%u\"\x7d"

/-- The format string of the transaction-commit message. -/
def commit_message_fmt : String := "\x7b\"type\":\"transaction.commit\",\"xid\":\"%u\"\x7d"

/-- Shallow embedding of pg_output_begin: format the begin message with the
transaction id. Emission is unconditional; pg_decode_begin_txn resets the
wrote-changes flag and always calls this. -/
def pg_output_begin (xid : Nat) : String := formatU begin_message_fmt.data xid

/-- Shallow embedding of pg_decode_commit_txn: format the commit message with
the transaction id. Emission is unconditional. -/
def pg_decode_commit_txn (xid : Nat) : String := formatU commit_message_fmt.data xid

/-- The list of type oids with a dedicated branch in the switch of
print_literal; every other oid takes the default (generic-text) branch. -/
def handledOids : List Nat :=
  [INT2OID, INT4OID, INT8OID, OIDOID, FLOAT4OID, FLOAT8OID, NUMERICOID,
   BITOID, VARBITOID, BOOLOID]

/-- The seven type oids of the numeric switch branch. -/
def numericOids : List Nat :=
  [INT2OID, INT4OID, INT8OID, OIDOID, FLOAT4OID, FLOAT8OID, NUMERICOID]

/-- Per-character expansion realized by the default-branch loop: single quotes
are doubled, every other character is kept as is. -/
def expandChar (c : Char) : List Char := if c = squote then [c, c] else [c]

lemma data_append (a b : String) : (a ++ b).data = a.data ++ b.data := rfl

lemma str_ext {a b : String} (h : a.data = b.data) : a = b := congrArg String.mk h

lemma push_data (s : String) (c : Char) : (s.push c).data = s.data ++ [c] := rfl

lemma sqlCharStep_data (s : String) (c : Char) :
    (sqlCharStep s c).data = s.data ++ expandChar c := by
  unfold sqlCharStep SQL_STR_DOUBLE expandChar
  by_cases h : c = squote
  · simp [h, push_data]
  · simp [h, push_data]

lemma foldl_sqlCharStep_data (l : List Char) (acc : String) :
    (l.foldl sqlCharStep acc).data = acc.data ++ (l.map expandChar).flatten := by
  induction l generalizing acc with
  | nil => simp
  | cons c rest ih => simp [List.foldl_cons, ih, sqlCharStep_data, List.append_assoc]

lemma sqlStrDoubleLoop_data (s : String) :
    (sqlStrDoubleLoop s).data = (s.data.map expandChar).flatten := by
  have h := foldl_sqlCharStep_data s.data ""
  simpa using h

lemma print_literal_generic (typid : Nat) (h : typid ∉ handledOids) (s : String) :
    print_literal typid s = "\"" ++ sqlStrDoubleLoop s ++ "\"" := by
  simp only [handledOids, List.mem_cons, List.not_mem_nil, or_false, not_or] at h
  obtain ⟨h1, h2, h3, h4, h5, h6, h7, h8, h9, h10⟩ := h
  simp [print_literal, h1, h2, h3, h4, h5, h6, h7, h8, h9, h10]

lemma count_flatten_expand_squote (l : List Char) :
    ((l.map expandChar).flatten).count squote = 2 * l.count squote := by
  induction l with
  | nil => simp
  | cons c rest ih =>
    by_cases h : c = squote
    · simp [expandChar, h, List.count_cons, ih]
      try omega
    · simp [expandChar, h, List.count_cons, ih]
      try omega

lemma count_flatten_expand_ne (a : Char) (ha : a ≠ squote) (l : List Char) :
    ((l.map expandChar).flatten).count a = l.count a := by
  induction l with
  | nil => simp
  | cons c rest ih =>
    by_cases h : c = squote
    · simp [expandChar, h, List.count_cons, ih, ha]
    · simp [expandChar, h, List.count_cons, ih]

/-- C1 counterexample: under the default (generic-text) branch, the scenario
text from the claim does not have its double quotes doubled; the output of the
code differs from the claimed rendering. -/
theorem print_literal_no_dquote_doubling :
    print_literal TEXTOID "He said \"hi\"" ≠ "\"He said \"\"hi\"\"\"" := by
  decide

/-- C1 (amended): under the default (generic-text) branch the output is the
input wrapped in double quotes where every single-quote character is doubled
and all other characters, double quotes, backslashes and control characters
included, pass through unchanged; the scenario text renders with its inner
double quotes intact and unescaped. -/
theorem print_literal_default_escaping :
    (∀ typid : Nat, typid ∉ handledOids → ∀ s : String,
      print_literal typid s = "\"" ++ String.mk ((s.data.map expandChar).flatten) ++ "\"")
    ∧ print_literal TEXTOID "He said \"hi\"" = "\"He said \"hi\"\"" := by
  constructor
  · intro typid h s
    rw [print_literal_generic typid h]
    have hmid : sqlStrDoubleLoop s = String.mk ((s.data.map expandChar).flatten) :=
      str_ext (sqlStrDoubleLoop_data s)
    rw [hmid]
  · decide

/-- C1 witness: the generic branch applies at the text oid, and on a concrete
input the amended rule evaluates as stated. -/
theorem print_literal_default_escaping_witness :
    (TEXTOID ∉ handledOids) ∧ print_literal TEXTOID "ab" = "\"ab\"" :=
  ⟨by decide, print_literal_default_escaping.1 TEXTOID (by decide) "ab"⟩

/-- C9: under the default (generic-text) branch every single-quote character of
the input is emitted twice, while double-quote characters are emitted exactly
as often as they occur in the input plus the two surrounding quotes, hence
unescaped inside them. -/
theorem single_quote_doubling_counts :
    ∀ typid : Nat, typid ∉ handledOids → ∀ s : String,
      (print_literal typid s).data.count squote = 2 * s.data.count squote ∧
      (print_literal typid s).data.count '"' = s.data.count '"' + 2 := by
  intro typid h s
  rw [print_literal_generic typid h]
  have hd : ("\"" ++ sqlStrDoubleLoop s ++ "\"").data
      = '"' :: ((s.data.map expandChar).flatten ++ ['"']) := by
    simp [data_append, sqlStrDoubleLoop_data]
  rw [hd]
  have h1 := count_flatten_expand_squote s.data
  have h2 := count_flatten_expand_ne '"' (by decide) s.data
  have hq : (squote == '"') = false := by decide
  have hq2 : ('"' == squote) = false := by decide
  constructor
  · simp [List.count_cons, List.count_append, h1, hq, hq2]
    try omega
  · simp [List.count_cons, List.count_append, h2, hq, hq2]
    try omega

/-- C9 witness: the counting property evaluated on a concrete input holding
one single quote and one double quote. -/
theorem single_quote_doubling_counts_witness :
    (TEXTOID ∉ handledOids) ∧
    ((print_literal TEXTOID (String.mk ['a', squote, '"'])).data.count squote
        = 2 * (String.mk ['a', squote, '"']).data.count squote ∧
      (print_literal TEXTOID (String.mk ['a', squote, '"'])).data.count '"'
        = (String.mk ['a', squote, '"']).data.count '"' + 2) :=
  ⟨by decide, single_quote_doubling_counts TEXTOID (by decide) (String.mk ['a', squote, '"'])⟩

/-- C4: the boolean branch maps the text t to true, the text f to false, and
every other text also to false, silently and without an error case. -/
theorem bool_text_mapping :
    print_literal BOOLOID "t" = "true" ∧ print_literal BOOLOID "f" = "false" ∧
      ∀ s : String, s ≠ "t" → print_literal BOOLOID s = "false" := by
  refine ⟨by decide, by decide, ?_⟩
  intro s hs
  simp [print_literal, BOOLOID, INT2OID, INT4OID, INT8OID, OIDOID, FLOAT4OID,
    FLOAT8OID, NUMERICOID, BITOID, VARBITOID, hs]

/-- C4 witness: a raw text that is neither t nor f falls back to false. -/
theorem bool_text_mapping_witness :
    ("x" ≠ "t") ∧ print_literal BOOLOID "x" = "false" :=
  ⟨by decide, bool_text_mapping.2.2 "x" (by decide)⟩

/-- C8: each of the seven numeric-branch oids passes the raw text through
verbatim and unquoted. -/
theorem numeric_verbatim :
    ∀ typid ∈ numericOids, ∀ s : String, print_literal typid s = s := by
  intro typid h s
  fin_cases h <;> rfl

/-- C8 witness: the four-byte integer oid is in the numeric branch and its
text passes through unchanged. -/
theorem numeric_verbatim_witness :
    (INT4OID ∈ numericOids) ∧ print_literal INT4OID "42" = "42" :=
  ⟨by decide, numeric_verbatim INT4OID (by decide) "42"⟩

/-- C5: a null value in an emitted column is dropped from the output exactly
when the action is delete, and otherwise rendered as the quoted column name
followed by the unquoted literal null, independently of the type oid. -/
theorem null_by_change_kind :
    ∀ (action : ChangeAction) (natt : Nat) (attr : PgAttribute),
      attr.attisdropped = false → 0 ≤ attr.attnum →
      attr_chunk (decide (action = ChangeAction.delete)) natt attr PgDatum.isnull
        = if action = ChangeAction.delete then ""
          else (if natt > 0 then "," else "") ++ ("\"" ++ attr.attname ++ "\":") ++ "null" := by
  intro action natt attr hd hn
  have h2 : ¬ (attr.attnum < 0) := by omega
  cases action <;> simp [attr_chunk, hd, h2]

/-- C5 witness: a null id column on delete disappears, and a null note column
on insert is emitted with the null literal. -/
theorem null_by_change_kind_witness :
    attr_chunk true 0 (PgAttribute.mk "id" INT4OID false 1) PgDatum.isnull = "" ∧
    attr_chunk false 1 (PgAttribute.mk "note" TEXTOID false 2) PgDatum.isnull = ",\"note\":null" :=
  ⟨null_by_change_kind ChangeAction.delete 0 (PgAttribute.mk "id" INT4OID false 1) rfl (by decide),
   null_by_change_kind ChangeAction.insert 1 (PgAttribute.mk "note" TEXTOID false 2) rfl (by decide)⟩

/-- C7: an emitted column whose varlena value is external on disk and not
materialized renders as the quoted sentinel, never as an omitted field and
never as null, under either skip-nulls mode. -/
theorem toast_sentinel :
    ∀ (skip_nulls : Bool) (natt : Nat) (attr : PgAttribute),
      attr.attisdropped = false → 0 ≤ attr.attnum →
      attr_chunk skip_nulls natt attr PgDatum.unchangedToast
        = (if natt > 0 then "," else "") ++ ("\"" ++ attr.attname ++ "\":") ++
            "\"???unchanged-toast-datum???\"" := by
  intro sk natt attr hd hn
  have h2 : ¬ (attr.attnum < 0) := by omega
  simp [attr_chunk, hd, h2]

/-- C7 witness: a concrete toasted column renders as the sentinel. -/
theorem toast_sentinel_witness :
    attr_chunk true 3 (PgAttribute.mk "doc" TEXTOID false 4) PgDatum.unchangedToast
      = ",\"doc\":\"???unchanged-toast-datum???\"" :=
  toast_sentinel true 3 (PgAttribute.mk "doc" TEXTOID false 4) rfl (by decide)

/-- C3: for every transaction identifier, the begin and commit callbacks each
emit exactly one flat object whose xid field is the decimal rendering of the
identifier, so the two xid fields for the same identifier agree; the
definitions are total, so emission has no error case. -/
theorem txn_framing (t : Nat) :
    pg_output_begin t
        = "\x7b\"type\":\"transaction.begin\",\"xid\":\"" ++ Nat.repr t ++ "\"\x7d"
    ∧ pg_decode_commit_txn t
        = "\x7b\"type\":\"transaction.commit\",\"xid\":\"" ++ Nat.repr t ++ "\"\x7d" :=
  ⟨rfl, rfl⟩

/-- C2 at the failing input: with a dropped first column the data object gains
a leading comma and is malformed, because the separator is keyed on the
attribute index rather than on whether a field was already emitted; the
zero-emitted-columns case, by contrast, does produce an empty data object. -/
theorem data_object_leading_comma :
    pg_decode_change "public.t"
        [PgAttribute.mk "a" INT4OID true 1, PgAttribute.mk "b" INT4OID false 2]
        ChangeAction.insert [PgDatum.present "1", PgDatum.present "2"]
      = "\x7b\"type\":\"table\",\"name\":\"public.t\",\"change\":\"INSERT\",\"data\":\x7b,\"b\":2\x7d\x7d"
    ∧ pg_decode_change "public.t" [] ChangeAction.insert []
      = "\x7b\"type\":\"table\",\"name\":\"public.t\",\"change\":\"INSERT\",\"data\":\x7b\x7d\x7d" :=
  ⟨rfl, rfl⟩

/-- C10: the qualified name handed over by the host and the column names are
spliced into the output verbatim, with no JSON escaping, for arbitrary
strings; instantiating them with quote-carrying identifiers, as the qualifier
produces for names needing quoting, leaves unescaped double quotes inside the
name and data JSON strings. -/
theorem identifiers_verbatim :
    (∀ q cname outv : String,
      pg_decode_change q [PgAttribute.mk cname INT4OID false 1]
          ChangeAction.insert [PgDatum.present outv]
        = "\x7b\"type\":\"table\",\"name\":\"" ++ q ++ "\",\"change\":\"INSERT\",\"data\":\x7b\""
            ++ cname ++ "\":" ++ outv ++ "\x7d\x7d")
    ∧ pg_decode_change "public.\"a\"\"b\"" [PgAttribute.mk "x\"y" INT4OID false 1]
          ChangeAction.insert [PgDatum.present "7"]
        = "\x7b\"type\":\"table\",\"name\":\"public.\"a\"\"b\"\",\"change\":\"INSERT\",\"data\":\x7b\"x\"y\":7\x7d\x7d" := by
  constructor
  · intro q cname outv
    apply str_ext
    simp [pg_decode_change, tuple_to_stringinfo, attr_chunk, print_literal,
      change_kind_str, data_append, List.append_assoc]
  · rfl

end DecodingJson
